import Mathlib

/-!
Shallow embedding of the sk-pkg/mysql package (a GORM MySQL connection builder
and logging adapter) and proofs about its specified behaviour.

The embedding covers the two source files:
* `logger.go` — the GORM logging adapter (`logger` struct, `WithLevel`,
  `LogMode`, `Info`/`Warn`/`Error`, `Trace`).
* `mysql.go` — the connection builder (`Config`, the functional options,
  `setOption`, `New`, `NewMulti`, `newConnect`).

External library values are embedded by their concrete definitions:
GORM log levels are the integers Silent=1, Error=2, Warn=3, Info=4
(`type LogLevel int` in gorm.io/gorm/logger); `time.Duration` is an
integer number of nanoseconds; a `*gorm.DB` handle is an opaque numeric
id supplied by a connection oracle; emission to the wrapped zap-based
log manager is modelled as the value returned by the logging function
(`none` = nothing emitted).
-/

namespace SkMysql

/-! ## GORM log levels (gorm.io/gorm/logger: Silent=1, Error=2, Warn=3, Info=4) -/

def silentLevel : Int := 1

def errorLevel : Int := 2

def warnLevel : Int := 3

def infoLevel : Int := 4

/-- `defaultLogLevel = gormlogger.Warn` in logger.go. -/
def defaultLogLevel : Int := warnLevel

/-- `defaultIgnoreRecordNotFoundError = true` in logger.go. -/
def defaultIgnoreRecordNotFoundError : Bool := true

/-- `defaultSlowThreshold = 200 * time.Millisecond` in logger.go, in nanoseconds. -/
def defaultSlowThreshold : Int := 200 * 1000000

/-- A Go `error` value as the logger observes it: either one for which
`errors.Is(err, gormlogger.ErrRecordNotFound)` holds, or any other error
carrying a message. -/
inductive GoErr where
  | recordNotFound
  | other (msg : String)
deriving DecidableEq, Repr

/-- `errors.Is(err, gormlogger.ErrRecordNotFound)` on a possibly-nil error. -/
def isNotFoundErr : Option GoErr → Bool
  | some GoErr.recordNotFound => true
  | _ => false

/-- The `logger` struct of logger.go.  The wrapped `*sklogger.Manager` is an
opaque id: the adapter only forwards calls to it, so its identity is all the
claims ever compare. -/
structure Logger where
  manager : Nat
  logLevel : Int
  slowThreshold : Int
  ignoreRecordNotFoundError : Bool
deriving DecidableEq, Repr

/-- `WithLevel` in logger.go: the level the option writes into the logger for
a given level string. -/
def withLevel (level : String) : Int :=
  if level = "warn" then warnLevel
  else if level = "error" then errorLevel
  else if level = "silent" then silentLevel
  else defaultLogLevel

/-- Applying the `LoggerOption` returned by `WithLevel` to a logger. -/
def applyWithLevel (l : Logger) (level : String) : Logger :=
  { l with logLevel := withLevel level }

/-- `LogMode` in logger.go: copy the receiver, overwrite the level, return the
copy. -/
def logMode (l : Logger) (level : Int) : Logger :=
  { l with logLevel := level }

/-- `logIfEnabled` in logger.go: forward `msg` to the log manager exactly when
`l.logLevel >= level`; the emitted message (or `none`) is the observable
output. -/
def logIfEnabled (l : Logger) (level : Int) (msg : String) : Option String :=
  if level ≤ l.logLevel then some msg else none

/-- `Info` in logger.go. -/
def infoGo (l : Logger) (msg : String) : Option String :=
  logIfEnabled l infoLevel msg

/-- `Warn` in logger.go. -/
def warnGo (l : Logger) (msg : String) : Option String :=
  logIfEnabled l warnLevel msg

/-- `Error` in logger.go. -/
def errorGo (l : Logger) (msg : String) : Option String :=
  logIfEnabled l errorLevel msg

/-- The record `Trace` hands to the log manager: which manager method was
called and the fields passed to it.  The elapsed time is carried as the
nanosecond count the millisecond string is formatted from. -/
inductive TraceOut where
  | errorLog (sql : String) (err : GoErr) (elapsedNs : Int) (rows : Int)
  | slowLog (sql : String) (elapsedNs : Int) (rows : Int)
  | infoLog (sql : String) (elapsedNs : Int) (rows : Int)
deriving DecidableEq, Repr

/-- The guard of the error branch of `Trace`:
`err != nil && l.logLevel >= Error && (!errors.Is(err, ErrRecordNotFound) || !l.ignoreRecordNotFoundError)`. -/
def traceErrCond (l : Logger) (err : Option GoErr) : Prop :=
  err ≠ none ∧ errorLevel ≤ l.logLevel ∧
    (isNotFoundErr err = false ∨ l.ignoreRecordNotFoundError = false)

instance (l : Logger) (err : Option GoErr) : Decidable (traceErrCond l err) := by
  unfold traceErrCond
  infer_instance

/-- `Trace` in logger.go.  `elapsedNs` is `time.Since(begin)` in nanoseconds,
`sql` and `rows` the results of `fc()`, `err` the statement error.  Returns
the record emitted to the log manager, or `none` when nothing is emitted. -/
def traceGo (l : Logger) (elapsedNs : Int) (sql : String) (rows : Int)
    (err : Option GoErr) : Option TraceOut :=
  if l.logLevel ≤ silentLevel then none
  else if traceErrCond l err then
    some (TraceOut.errorLog sql (err.getD (GoErr.other "")) elapsedNs rows)
  else if l.slowThreshold < elapsedNs ∧ l.slowThreshold ≠ 0 ∧ warnLevel ≤ l.logLevel then
    some (TraceOut.slowLog sql elapsedNs rows)
  else if infoLevel ≤ l.logLevel then
    some (TraceOut.infoLog sql elapsedNs rows)
  else none

/-- `NewLog` in logger.go: defaults, then the options applied in order. -/
def newLog (manager : Nat) (opts : List (Logger → Logger)) : Logger :=
  opts.foldl (fun l f => f l)
    { manager := manager
      logLevel := defaultLogLevel
      slowThreshold := defaultSlowThreshold
      ignoreRecordNotFoundError := defaultIgnoreRecordNotFoundError }

/-- Discriminator: did `Trace` emit through the Error method of the manager? -/
def isErrorLog : Option TraceOut → Bool
  | some (TraceOut.errorLog _ _ _ _) => true
  | _ => false

/-! ## mysql.go: configuration, options and connection construction -/

/-- The `Config` struct of mysql.go. -/
structure Config where
  user : String
  password : String
  host : String
  dbName : String
deriving DecidableEq, Repr

/-- The private `option` struct of mysql.go.  `gorm.Config` is opaque to this
package (stored and handed to `gorm.Open` unchanged), so it is an opaque id;
`connMaxLifetime` is a `time.Duration` in nanoseconds. -/
structure GoOption where
  dbConfigs : List Config
  gormConfig : Nat
  maxIdleConn : Int
  maxOpenConn : Int
  connMaxLifetime : Int
deriving DecidableEq, Repr

/-- `defaultMaxIdleConn = 10` in mysql.go. -/
def defaultMaxIdleConn : Int := 10

/-- `defaultMaxOpenConn = 50` in mysql.go. -/
def defaultMaxOpenConn : Int := 50

/-- `defaultConnMaxLifetime = 3 * time.Hour` in mysql.go, in nanoseconds. -/
def defaultConnMaxLifetime : Int := 3 * 3600 * 1000000000

/-- The exported `Option` constructors of mysql.go (`WithConfigs`,
`WithGormConfig`, `WithMaxIdleConn`, `WithConnMaxLifetime`,
`WithMaxOpenConn`): each is a closure writing one field of `option`. -/
inductive TuneOpt where
  | withConfigs (cfgs : List Config)
  | withGormConfig (cfg : Nat)
  | withMaxIdleConn (n : Int)
  | withConnMaxLifetime (d : Int)
  | withMaxOpenConn (n : Int)
deriving DecidableEq, Repr

/-- Running one `Option` closure on the `option` struct. -/
def applyOpt (o : GoOption) : TuneOpt → GoOption
  | TuneOpt.withConfigs cfgs => { o with dbConfigs := cfgs }
  | TuneOpt.withGormConfig c => { o with gormConfig := c }
  | TuneOpt.withMaxIdleConn n => { o with maxIdleConn := n }
  | TuneOpt.withConnMaxLifetime d => { o with connMaxLifetime := d }
  | TuneOpt.withMaxOpenConn n => { o with maxOpenConn := n }

/-- `setOption` in mysql.go: start from the pool defaults (other fields at
their Go zero values) and apply the supplied options in order. -/
def setOption (opts : List TuneOpt) : GoOption :=
  opts.foldl applyOpt
    { dbConfigs := []
      gormConfig := 0
      maxIdleConn := defaultMaxIdleConn
      maxOpenConn := defaultMaxOpenConn
      connMaxLifetime := defaultConnMaxLifetime }

/-- The pool tuning `newConnect` pushes into the underlying `database/sql`
handle via `SetMaxIdleConns`, `SetMaxOpenConns`, `SetConnMaxLifetime`. -/
structure PoolSettings where
  maxIdleConns : Int
  maxOpenConns : Int
  connMaxLifetime : Int
deriving DecidableEq, Repr

/-- The three pool-configuration calls at the end of `newConnect`. -/
def newConnectPool (opt : GoOption) : PoolSettings :=
  { maxIdleConns := opt.maxIdleConn
    maxOpenConns := opt.maxOpenConn
    connMaxLifetime := opt.connMaxLifetime }

/-- The DSN built by `newConnect`:
`fmt.Sprintf("%s:%s@tcp(%s)/%s?charset=utf8mb4&parseTime=True&loc=Local", cfg.User, cfg.Password, cfg.Host, cfg.DBName)`.
With only `%s` verbs and one argument per verb, `Sprintf` is the
concatenation of the literal chunks of the format with the arguments in order. -/
def dsnGo (cfg : Config) : String :=
  cfg.user ++ ":" ++ cfg.password ++ "@tcp(" ++ cfg.host ++ ")/" ++ cfg.dbName
    ++ "?charset=utf8mb4&parseTime=True&loc=Local"

/-- The connection-string template as the spec states it:
`user:password@tcp(host)/dbname?charset=utf8mb4&parseTime=True&loc=Local`,
written from the spec sentence (not from the code) for comparison. -/
def dsnSpecTemplate (user password host dbname : String) : String :=
  user ++ ":" ++ password ++ "@tcp(" ++ host ++ ")/" ++ dbname
    ++ "?charset=utf8mb4&parseTime=True&loc=Local"

/-- The error `New` returns when it is not given exactly one configuration. -/
def errOnlyOne : GoErr :=
  GoErr.other "this method can only initialize one database connection instance"

/-- The error `NewMulti` returns when it is given zero configurations. -/
def errZeroConfigs : GoErr :=
  GoErr.other "the number of database configurations to initialize cannot be 0"

/-- `New` in mysql.go, parameterised by a connection oracle `conn` standing
for the success or failure of `newConnect` on each configuration (the pool options
do not influence which handle a successful open yields).  The empty match arm
is unreachable: the guard has already ruled out every length other than 1. -/
def newGo (conn : Config → Except GoErr Nat) (opts : List TuneOpt) :
    Except GoErr Nat :=
  if (setOption opts).dbConfigs.length ≠ 1 then Except.error errOnlyOne
  else
    match (setOption opts).dbConfigs with
    | c :: _ => conn c
    | [] => Except.error errOnlyOne

/-- Assignment `dbs[k] = v` on a Go map represented as an association list
whose keys are unique: overwrite the entry for `k` when present, otherwise
append a new one. -/
def goInsert (m : List (String × Nat)) (k : String) (v : Nat) :
    List (String × Nat) :=
  if m.any (fun p => p.fst = k) then
    m.map (fun p => if p.fst = k then (k, v) else p)
  else m ++ [(k, v)]

/-- The loop of `NewMulti`, also recording which connections have been opened
(the source never closes a connection, so the third component is exactly the
set of handles left open).  The first component is the returned map (`none`
is the Go nil map), the second the returned error. -/
def newMultiLoop (conn : Config → Except GoErr Nat) :
    List Config → List (String × Nat) → List Nat →
    Option (List (String × Nat)) × Option GoErr × List Nat
  | [], dbs, opened => (some dbs, none, opened)
  | cfg :: rest, dbs, opened =>
    match conn cfg with
    | Except.error e => (none, some e, opened)
    | Except.ok db => newMultiLoop conn rest (goInsert dbs cfg.dbName db) (opened ++ [db])

/-- `NewMulti` in mysql.go: apply the options, reject an empty configuration
list, then open the configurations in order, keying each handle by its
database name.  Returns (returned map, returned error, handles opened). -/
def newMultiGo (conn : Config → Except GoErr Nat) (opts : List TuneOpt) :
    Option (List (String × Nat)) × Option GoErr × List Nat :=
  if (setOption opts).dbConfigs.length < 1 then (none, some errZeroConfigs, [])
  else newMultiLoop conn (setOption opts).dbConfigs [] []

/-- The handle a successful `newConnect` call yields (0 when it failed; only
applied under a success hypothesis). -/
def getOk : Except GoErr Nat → Nat
  | Except.ok v => v
  | Except.error _ => 0

/-! ## Concrete values used to evaluate the embedding -/

/-- A configuration whose connection attempt succeeds under `exConn`. -/
def cfgA : Config := { user := "u", password := "p", host := "h", dbName := "dbA" }

/-- A configuration whose connection attempt fails under `exConn`. -/
def cfgB : Config := { user := "u", password := "p", host := "h", dbName := "dbB" }

/-- Two distinct configurations sharing one database name. -/
def cfgDupA : Config := { user := "u1", password := "p1", host := "h1", dbName := "db" }

/-- Second configuration with the same database name as `cfgDupA`. -/
def cfgDupB : Config := { user := "u2", password := "p2", host := "h2", dbName := "db" }

/-- A connection oracle under which only `cfgA` opens (handle 1). -/
def exConn (c : Config) : Except GoErr Nat :=
  if c.dbName = "dbA" then Except.ok 1
  else Except.error (GoErr.other "dial tcp: connection refused")

/-- A connection oracle under which every open succeeds with handle 7. -/
def okConn (_ : Config) : Except GoErr Nat := Except.ok 7

/-- A logger at Warn level with a 100 ns slow threshold. -/
def exLogger : Logger :=
  { manager := 0, logLevel := warnLevel, slowThreshold := 100,
    ignoreRecordNotFoundError := true }

/-! ## Helper lemmas -/

/-- The error-branch guard on a non-nil error, rephrased over the error value. -/
theorem traceErrCond_some_iff (l : Logger) (e : GoErr) :
    traceErrCond l (some e) ↔
      errorLevel ≤ l.logLevel ∧
        ¬(e = GoErr.recordNotFound ∧ l.ignoreRecordNotFoundError = true) := by
  unfold traceErrCond
  cases e <;> simp [isNotFoundErr]

/-- `Trace` on a non-nil error emits through the Error method of the manager,
with the traced fields, exactly when the error-branch guard holds. -/
theorem trace_eq_errorLog_iff (l : Logger) (elapsedNs : Int) (sql : String)
    (rows : Int) (e : GoErr) :
    traceGo l elapsedNs sql rows (some e) =
        some (TraceOut.errorLog sql e elapsedNs rows) ↔
      traceErrCond l (some e) := by
  rw [traceGo]
  split_ifs with hs hc h3 h4
  · refine iff_of_false (by simp) (fun h => ?_)
    unfold traceErrCond at h
    unfold errorLevel at h
    unfold silentLevel at hs
    omega
  · exact iff_of_true (by simp) hc
  · exact iff_of_false (by simp) hc
  · exact iff_of_false (by simp) hc
  · exact iff_of_false (by simp) hc

/-! ## Claim theorems: logging adapter -/

/-- Claim C3: for every traced statement, an error-level record carrying the
SQL text, elapsed time, row count and error is emitted exactly when an error
occurred, the configured level is at least Error, and it is not the case that
the error is "record not found" with suppression enabled; with no error (and
in the suppressed case, by the iff) no error-level record is emitted. -/
theorem trace_error_iff (l : Logger) (elapsedNs : Int) (sql : String)
    (rows : Int) (e : GoErr) :
    (traceGo l elapsedNs sql rows (some e) =
        some (TraceOut.errorLog sql e elapsedNs rows) ↔
      errorLevel ≤ l.logLevel ∧
        ¬(e = GoErr.recordNotFound ∧ l.ignoreRecordNotFoundError = true)) ∧
    isErrorLog (traceGo l elapsedNs sql rows none) = false := by
  constructor
  · exact (trace_eq_errorLog_iff l elapsedNs sql rows e).trans
      (traceErrCond_some_iff l e)
  · rw [traceGo]
    split_ifs with hs hc h3 h4 <;> try simp [isErrorLog]
    exact absurd rfl (by unfold traceErrCond at hc; exact hc.1)

/-- Claim C4: for a traced statement not classified as an error, a slow-query
warning with the traced fields is emitted exactly when the elapsed time
strictly exceeds the slow threshold, the threshold is nonzero, and the level
is at least Warn (also when no error occurred at all); a zero threshold never
produces a slow-query warning. -/
theorem trace_slow_iff (l : Logger) (elapsedNs : Int) (sql : String)
    (rows : Int) (err : Option GoErr) (hne : ¬ traceErrCond l err) :
    traceGo l elapsedNs sql rows err = some (TraceOut.slowLog sql elapsedNs rows) ↔
      l.slowThreshold < elapsedNs ∧ l.slowThreshold ≠ 0 ∧
        warnLevel ≤ l.logLevel := by
  rw [traceGo]
  split_ifs with hs h3 h4
  · refine iff_of_false (by simp) (fun h => ?_)
    unfold warnLevel at h
    unfold silentLevel at hs
    omega
  · exact iff_of_true rfl h3
  · exact iff_of_false (by simp) h3
  · exact iff_of_false (by simp) h3

/-- Witness for C4: a Warn-level logger with threshold 100 ns, no error and
elapsed 150 ns satisfies the hypothesis, and the slow-query warning fires. -/
theorem trace_slow_iff_witness :
    ¬ traceErrCond exLogger none ∧
    (traceGo exLogger 150 "SELECT 1" 2 none =
        some (TraceOut.slowLog "SELECT 1" 150 2) ↔
      exLogger.slowThreshold < 150 ∧ exLogger.slowThreshold ≠ 0 ∧
        warnLevel ≤ exLogger.logLevel) :=
  ⟨by decide, trace_slow_iff exLogger 150 "SELECT 1" 2 none (by decide)⟩

/-- Claim C5: with the level set to silent, neither `Trace` nor `Info`,
`Warn`, `Error` emits anything, whatever the message, elapsed time, rows or
error. -/
theorem silent_no_output (m : Nat) (st : Int) (ig : Bool) (elapsedNs : Int)
    (sql msg : String) (rows : Int) (err : Option GoErr) :
    traceGo { manager := m, logLevel := silentLevel, slowThreshold := st,
              ignoreRecordNotFoundError := ig } elapsedNs sql rows err = none ∧
    infoGo { manager := m, logLevel := silentLevel, slowThreshold := st,
             ignoreRecordNotFoundError := ig } msg = none ∧
    warnGo { manager := m, logLevel := silentLevel, slowThreshold := st,
             ignoreRecordNotFoundError := ig } msg = none ∧
    errorGo { manager := m, logLevel := silentLevel, slowThreshold := st,
              ignoreRecordNotFoundError := ig } msg = none := by
  refine ⟨?_, ?_, ?_, ?_⟩ <;>
    simp [traceGo, infoGo, warnGo, errorGo, logIfEnabled, silentLevel,
      infoLevel, warnLevel, errorLevel]

/-- Claim C6: `LogMode` returns a logger whose level is the requested one and
whose other fields (manager, slow threshold, ignore flag) equal the original ones;
being a value copy, the original logger is untouched. -/
theorem logMode_fields (l : Logger) (level : Int) :
    (logMode l level).logLevel = level ∧
    (logMode l level).manager = l.manager ∧
    (logMode l level).slowThreshold = l.slowThreshold ∧
    (logMode l level).ignoreRecordNotFoundError = l.ignoreRecordNotFoundError :=
  ⟨rfl, rfl, rfl, rfl⟩

/-- Claim C10: `WithLevel` maps "warn", "error", "silent" to the matching
levels, sends every other string — "info" and "debug" included — to the Warn
default, and never yields the Info level. -/
theorem withLevel_mapping :
    withLevel "warn" = warnLevel ∧
    withLevel "error" = errorLevel ∧
    withLevel "silent" = silentLevel ∧
    withLevel "info" = warnLevel ∧
    withLevel "debug" = warnLevel ∧
    (∀ s : String, s ≠ "warn" → s ≠ "error" → s ≠ "silent" →
      withLevel s = warnLevel) ∧
    (∀ s : String, withLevel s ≠ infoLevel) := by
  refine ⟨by decide, by decide, by decide, by decide, by decide, ?_, ?_⟩
  · intro s h1 h2 h3
    simp [withLevel, h1, h2, h3, defaultLogLevel]
  · intro s
    unfold withLevel
    split_ifs <;> decide

/-- Witness for C10: the unrecognised strings go to Warn and nothing reaches
Info. -/
theorem withLevel_mapping_witness :
    withLevel "debug" = warnLevel ∧ withLevel "trace-level" = warnLevel ∧
    withLevel "info" ≠ infoLevel :=
  ⟨withLevel_mapping.2.2.2.2.1,
   withLevel_mapping.2.2.2.2.2.1 "trace-level" (by decide) (by decide) (by decide),
   withLevel_mapping.2.2.2.2.2.2 "info"⟩

/-! ## Helper lemmas: connection builder -/

/-- `WithConfigs` is the only supplied option ⇒ `setOption` holds its list. -/
theorem setOption_withConfigs (cfgs : List Config) :
    (setOption [TuneOpt.withConfigs cfgs]).dbConfigs = cfgs := rfl

/-- Map assignment with a key absent from the map appends a new entry. -/
theorem goInsert_fresh (m : List (String × Nat)) (k : String) (v : Nat)
    (h : k ∉ m.map Prod.fst) : goInsert m k v = m ++ [(k, v)] := by
  unfold goInsert
  rw [if_neg]
  intro hany
  rw [List.any_eq_true] at hany
  obtain ⟨p, hp, he⟩ := hany
  rw [decide_eq_true_eq] at he
  exact h (List.mem_map.mpr ⟨p, hp, he⟩)

/-- The `NewMulti` loop over configurations that all open, whose database
names are pairwise distinct and fresh for the accumulated map: it appends one
entry and one opened handle per configuration, in input order, and returns no
error. -/
theorem newMultiLoop_ok (conn : Config → Except GoErr Nat)
    (cfgs : List Config) :
    ∀ (dbs : List (String × Nat)) (opened : List Nat),
      (∀ c ∈ cfgs, ∃ d, conn c = Except.ok d) →
      (cfgs.map Config.dbName).Nodup →
      (∀ c ∈ cfgs, c.dbName ∉ dbs.map Prod.fst) →
      newMultiLoop conn cfgs dbs opened =
        (some (dbs ++ cfgs.map fun c => (c.dbName, getOk (conn c))), none,
         opened ++ cfgs.map fun c => getOk (conn c)) := by
  induction cfgs with
  | nil => intro dbs opened _ _ _; simp [newMultiLoop]
  | cons cfg rest ih =>
    intro dbs opened hok hnd hfresh
    obtain ⟨d, hd⟩ := hok cfg (List.mem_cons_self _ _)
    have hstep : newMultiLoop conn (cfg :: rest) dbs opened =
        newMultiLoop conn rest (goInsert dbs cfg.dbName d) (opened ++ [d]) := by
      simp [newMultiLoop, hd]
    have hok2 : ∀ c ∈ rest, ∃ d, conn c = Except.ok d :=
      fun c hc => hok c (List.mem_cons_of_mem _ hc)
    have hnd2 : (rest.map Config.dbName).Nodup := by
      simp only [List.map_cons, List.nodup_cons] at hnd
      exact hnd.2
    have hhead : cfg.dbName ∉ rest.map Config.dbName := by
      simp only [List.map_cons, List.nodup_cons] at hnd
      exact hnd.1
    have hfr2 : ∀ c ∈ rest,
        c.dbName ∉ (dbs ++ [(cfg.dbName, d)]).map Prod.fst := by
      intro c hc
      simp only [List.map_append, List.mem_append, List.map_cons, List.map_nil,
        List.mem_singleton, not_or]
      refine ⟨hfresh c (List.mem_cons_of_mem _ hc), fun h => ?_⟩
      exact hhead (List.mem_map.mpr ⟨c, hc, h⟩)
    rw [hstep, goInsert_fresh dbs cfg.dbName d (hfresh cfg (List.mem_cons_self _ _)),
      ih (dbs ++ [(cfg.dbName, d)]) (opened ++ [d]) hok2 hnd2 hfr2]
    have hgd : getOk (conn cfg) = d := by rw [hd]; rfl
    simp [hgd, List.append_assoc]

/-- The `NewMulti` loop when the configurations up to the first failure all
open and that configuration fails: it stops there, reports that error with a
nil map, and has opened exactly the handles of the earlier configurations. -/
theorem newMultiLoop_fail (conn : Config → Except GoErr Nat) (c0 : Config)
    (e : GoErr) (post : List Config) (hc0 : conn c0 = Except.error e)
    (pre : List Config) :
    ∀ (dbs : List (String × Nat)) (opened : List Nat),
      (∀ c ∈ pre, ∃ d, conn c = Except.ok d) →
      newMultiLoop conn (pre ++ c0 :: post) dbs opened =
        (none, some e, opened ++ pre.map fun c => getOk (conn c)) := by
  induction pre with
  | nil => intro dbs opened _; simp [newMultiLoop, hc0]
  | cons cfg rest ih =>
    intro dbs opened hok
    obtain ⟨d, hd⟩ := hok cfg (List.mem_cons_self _ _)
    have hstep : newMultiLoop conn ((cfg :: rest) ++ c0 :: post) dbs opened =
        newMultiLoop conn (rest ++ c0 :: post)
          (goInsert dbs cfg.dbName d) (opened ++ [d]) := by
      simp [newMultiLoop, hd]
    rw [hstep, ih (goInsert dbs cfg.dbName d) (opened ++ [d])
      (fun c hc => hok c (List.mem_cons_of_mem _ hc))]
    have hgd : getOk (conn cfg) = d := by rw [hd]; rfl
    simp [hgd, List.append_assoc]

/-! ## Claim theorems: connection builder -/

/-- Counterexample to C1 as stated: both configurations are handed to
`NewMulti`, the first opens (handle 1), the second fails.  `NewMulti` does
return the error of the second record, and handle 1 is indeed left open (third
component), but the map handed back is nil — the already-opened connection is
not in any returned map. -/
theorem newMulti_nil_map_counterexample :
    newMultiGo exConn [TuneOpt.withConfigs [cfgA, cfgB]] =
      (none, some (GoErr.other "dial tcp: connection refused"), [1]) := rfl

/-- Claim C1 (amended): on the first failing record, in input order,
`NewMulti` stops and returns the error of that record together with a nil map; the
connections already opened for the earlier records are left open (the code
never closes them) but the partial map is discarded, not handed back. -/
theorem newMulti_first_failure (conn : Config → Except GoErr Nat)
    (pre : List Config) (c0 : Config) (post : List Config) (e : GoErr)
    (hok : ∀ c ∈ pre, ∃ d, conn c = Except.ok d)
    (hc0 : conn c0 = Except.error e) :
    newMultiGo conn [TuneOpt.withConfigs (pre ++ c0 :: post)] =
      (none, some e, pre.map fun c => getOk (conn c)) := by
  unfold newMultiGo
  rw [setOption_withConfigs]
  have hlen : ¬ (pre ++ c0 :: post).length < 1 := by
    simp only [List.length_append, List.length_cons]
    omega
  rw [if_neg hlen]
  exact newMultiLoop_fail conn c0 e post hc0 pre [] [] hok

/-- Witness for C1 (amended): under `exConn`, `[cfgA, cfgB]` opens handle 1
for `cfgA` and fails on `cfgB`; the result is that error, a nil map, and
handle 1 left open. -/
theorem newMulti_first_failure_witness :
    newMultiGo exConn [TuneOpt.withConfigs ([cfgA] ++ cfgB :: [])] =
      (none, some (GoErr.other "dial tcp: connection refused"),
       [cfgA].map fun c => getOk (exConn c)) := by
  refine newMulti_first_failure exConn [cfgA] cfgB [] _ ?_ rfl
  intro c hc
  rw [List.mem_singleton] at hc
  subst hc
  exact ⟨1, rfl⟩

/-- Counterexample to C2 as stated: two configuration records that share the
database name "db", every connection attempt succeeding.  `NewMulti` returns
a one-entry map, not a two-entry one: the second record overwrote the first
under the shared key (both handles were opened). -/
theorem newMulti_dup_name_counterexample :
    newMultiGo okConn [TuneOpt.withConfigs [cfgDupA, cfgDupB]] =
      (some [("db", 7)], none, [7, 7]) := rfl

/-- Claim C2 (amended): `NewMulti` rejects zero configuration records with an
error, and for every nonempty list of records whose database names are
pairwise distinct and whose connection attempts all succeed it returns, with
no error, the map keying the database name of each record to the handle opened for
that record — in particular a map with exactly N entries.  (With duplicate
names, later records overwrite earlier ones and the map is smaller.) -/
theorem newMulti_zero_and_success (conn : Config → Except GoErr Nat)
    (cfgs : List Config) (hne : cfgs ≠ [])
    (hok : ∀ c ∈ cfgs, ∃ d, conn c = Except.ok d)
    (hnd : (cfgs.map Config.dbName).Nodup) :
    newMultiGo conn [TuneOpt.withConfigs []] = (none, some errZeroConfigs, []) ∧
    newMultiGo conn [TuneOpt.withConfigs cfgs] =
      (some (cfgs.map fun c => (c.dbName, getOk (conn c))), none,
       cfgs.map fun c => getOk (conn c)) ∧
    (cfgs.map fun c => (c.dbName, getOk (conn c))).length = cfgs.length := by
  refine ⟨rfl, ?_, by simp⟩
  unfold newMultiGo
  rw [setOption_withConfigs]
  have hlen : ¬ cfgs.length < 1 := by
    simp only [Nat.lt_one_iff, List.length_eq_zero]
    exact hne
  rw [if_neg hlen]
  exact newMultiLoop_ok conn cfgs [] [] hok hnd (by simp)

/-- Witness for C2 (amended): under `okConn`, the two distinctly named
configurations `[cfgA, cfgB]` yield the two-entry map in input order. -/
theorem newMulti_zero_and_success_witness :
    newMultiGo okConn [TuneOpt.withConfigs [cfgA, cfgB]] =
      (some [("dbA", 7), ("dbB", 7)], none, [7, 7]) := by
  have h := (newMulti_zero_and_success okConn [cfgA, cfgB] (by decide)
    (fun c _ => ⟨7, rfl⟩) (by decide)).2.1
  simpa [cfgA, cfgB, okConn, getOk] using h

/-- Claim C7: `New` fails with its only-one-connection error whenever the
options supply a number of configuration records other than one, and calls
the connection builder on the single record exactly when one is supplied. -/
theorem new_single_config (conn : Config → Except GoErr Nat)
    (opts : List TuneOpt) :
    ((setOption opts).dbConfigs.length ≠ 1 →
      newGo conn opts = Except.error errOnlyOne) ∧
    (∀ c : Config, (setOption opts).dbConfigs = [c] →
      newGo conn opts = conn c) := by
  constructor
  · intro h
    unfold newGo
    rw [if_pos h]
  · intro c hc
    unfold newGo
    rw [hc]
    simp

/-- Witness for C7: zero records (no options) is rejected; exactly one record
opens the connection of that record. -/
theorem new_single_config_witness :
    newGo exConn [] = Except.error errOnlyOne ∧
    newGo exConn [TuneOpt.withConfigs [cfgA]] = Except.ok 1 := by
  constructor
  · exact (new_single_config exConn []).1 (by decide)
  · have h := (new_single_config exConn [TuneOpt.withConfigs [cfgA]]).2 cfgA rfl
    rw [h]
    rfl

/-- Claim C8: with no tuning options the pool applied by `newConnect` is 10
idle / 50 open / 3 h (in nanoseconds) lifetime, and each tuning option
overrides exactly its own knob, leaving the other two at their defaults. -/
theorem pool_defaults_and_overrides :
    newConnectPool (setOption []) =
      { maxIdleConns := 10, maxOpenConns := 50,
        connMaxLifetime := 10800000000000 } ∧
    (∀ n : Int, newConnectPool (setOption [TuneOpt.withMaxIdleConn n]) =
      { maxIdleConns := n, maxOpenConns := 50,
        connMaxLifetime := 10800000000000 }) ∧
    (∀ n : Int, newConnectPool (setOption [TuneOpt.withMaxOpenConn n]) =
      { maxIdleConns := 10, maxOpenConns := n,
        connMaxLifetime := 10800000000000 }) ∧
    (∀ d : Int, newConnectPool (setOption [TuneOpt.withConnMaxLifetime d]) =
      { maxIdleConns := 10, maxOpenConns := 50, connMaxLifetime := d }) :=
  ⟨by decide, fun n => rfl, fun n => rfl, fun d => rfl⟩

/-- Claim C9: the DSN built by `newConnect` for user u, password p, host h
and database name d is exactly the template the spec states:
`u:p@tcp(h)/d?charset=utf8mb4&parseTime=True&loc=Local`. -/
theorem dsn_format (u p h d : String) :
    dsnGo { user := u, password := p, host := h, dbName := d } =
      dsnSpecTemplate u p h d := rfl

end SkMysql
